import Mathlib

/-!
Shallow embedding of the whirlpool node (a Maelstrom-style single-node
message-dispatch engine) and proofs of its specification claims.

Source files embedded: src/payload.rs (the tagged payload union),
src/lib.rs (the `EchoNode` state machine and its `step` function),
src/main.rs (the driving loop and the initial node state).
-/

namespace Whirlpool

/-- The tagged payload union from src/payload.rs.  `usize` fields are
modelled as `Nat`; `HashMap<String, Vec<usize>>` is modelled as an
association list. -/
inductive Payload where
  | Add (delta : Nat)
  | AddOk
  | Echo (echo : String)
  | EchoOk (echo : String)
  | Init (node_id : String) (node_ids : List String)
  | InitOk
  | Generate
  | GenerateOk (id : String)
  | Broadcast (message : Nat)
  | BroadcastOk
  | Read
  | ReadOk (value : Nat)
  | TopologyOk
  | Topology (topology : List (String × List Nat))
  deriving Repr, DecidableEq

/-- `Body` from src/lib.rs: `msg_id` (field `id`), `in_reply_to`, and the
flattened payload. -/
structure Body where
  id : Option Nat
  in_reply_to : Option Nat
  payload : Payload
  deriving Repr, DecidableEq

/-- `Message` from src/lib.rs: the envelope `src`/`dest`/`body`. -/
structure Message where
  src : String
  dest : String
  body : Body
  deriving Repr, DecidableEq

/-- `EchoNode` from src/lib.rs: the message counter `id`, the counter
workload accumulator `value`, and the topology map `known`. -/
structure EchoNode where
  id : Nat
  value : Nat
  known : List (String × List Nat)
  deriving Repr, DecidableEq

/-- The body of `EchoNode::step`'s `match` on the inbound payload
(src/lib.rs): per-branch state effect and reply, before the trailing
`self.id += 1`.  The written reply is returned instead of being emitted to
stdout; `bail!` is modelled as `Except.error` carrying the verbatim error
string; `Uuid::new_v4().to_string()` is modelled by the `fresh`
parameter. -/
def dispatch (fresh : String) (node : EchoNode) (input : Message) :
    EchoNode × Except String (Option Message) :=
  match input.body.payload with
  | Payload.Add delta =>
      let node' : EchoNode := { node with value := node.value + delta }
      (node', Except.ok (some
        { src := input.dest, dest := input.src,
          body := { id := some node'.id, in_reply_to := input.body.id,
                    payload := Payload.AddOk } }))
  | Payload.Broadcast _ =>
      (node, Except.ok (some
        { src := input.dest, dest := input.src,
          body := { id := some node.id, in_reply_to := input.body.id,
                    payload := Payload.BroadcastOk } }))
  | Payload.Topology topology =>
      let node' : EchoNode := { node with known := topology }
      (node', Except.ok (some
        { src := input.dest, dest := input.src,
          body := { id := some node'.id, in_reply_to := input.body.id,
                    payload := Payload.TopologyOk } }))
  | Payload.Read =>
      (node, Except.ok (some
        { src := input.dest, dest := input.src,
          body := { id := some node.id, in_reply_to := input.body.id,
                    payload := Payload.ReadOk node.value } }))
  | Payload.Generate =>
      (node, Except.ok (some
        { src := input.dest, dest := input.src,
          body := { id := some node.id, in_reply_to := input.body.id,
                    payload := Payload.GenerateOk fresh } }))
  | Payload.Init _ _ =>
      (node, Except.ok (some
        { src := input.dest, dest := input.src,
          body := { id := some node.id, in_reply_to := input.body.id,
                    payload := Payload.InitOk } }))
  | Payload.Echo echo =>
      (node, Except.ok (some
        { src := input.dest, dest := input.src,
          body := { id := some node.id, in_reply_to := input.body.id,
                    payload := Payload.EchoOk echo } }))
  | Payload.EchoOk _ => (node, Except.error "recieved init_ok Message")
  | Payload.InitOk => (node, Except.ok none)
  | Payload.GenerateOk _ => (node, Except.error "recieved generate_ok Message")
  | Payload.ReadOk _ => (node, Except.error "recieved read_ok Message")
  | Payload.BroadcastOk => (node, Except.error "recieved BroadcastOk Message")
  | Payload.TopologyOk => (node, Except.error "recieved TopologyOk Message")
  | Payload.AddOk => (node, Except.error "recieved AddOk Message")

/-- `EchoNode::step` from src/lib.rs: run the dispatch `match`; on success
execute the trailing `self.id += 1`, on `bail!` return the error with the
node state untouched. -/
def step (fresh : String) (node : EchoNode) (input : Message) :
    EchoNode × Except String (Option Message) :=
  match dispatch fresh node input with
  | (n, Except.ok out) => ({ n with id := n.id + 1 }, Except.ok out)
  | (n, Except.error e) => (n, Except.error e)

/-- The initial node state built in `main` (src/main.rs): `id: 0`,
`value: 0`, `known: HashMap::new()`. -/
def initialNode : EchoNode := { id := 0, value := 0, known := [] }

/-- The driving loop of `main` (src/main.rs): feed each inbound message to
`step` in order, collecting the emitted replies, aborting on the first
error.  `gen` supplies the fresh uuid for the message at each index. -/
def run (gen : Nat → String) :
    Nat → EchoNode → List Message → EchoNode × Except String (List Message)
  | _, node, [] => (node, Except.ok [])
  | k, node, input :: rest =>
      match step (gen k) node input with
      | (n, Except.ok out) =>
          match run gen (k + 1) n rest with
          | (n', Except.ok outs) => (n', Except.ok (out.toList ++ outs))
          | (n', Except.error e) => (n', Except.error e)
      | (n, Except.error e) => (n, Except.error e)

/-- A fixed uuid oracle for concrete runs (the claims never depend on the
generated id values). -/
def gen0 : Nat → String := fun k => toString k

/-- A concrete `echo` request, used as a witness input. -/
def sampleEcho : Message :=
  { src := "c1", dest := "n1",
    body := { id := some 7, in_reply_to := none, payload := Payload.Echo "hi" } }

/-- A concrete inbound `echo_ok`, used as a witness input for the failure
branches. -/
def sampleEchoOk : Message :=
  { src := "c1", dest := "n1",
    body := { id := some 7, in_reply_to := none, payload := Payload.EchoOk "hi" } }

/-- C6: for every `echo` request the reply is `echo_ok` carrying the
identical string, with `in_reply_to` equal to the request's `msg_id`, and
the node state unchanged except the counter increment. -/
theorem C6_echo_roundtrip (fresh : String) (node : EchoNode)
    (src dest : String) (mid irt : Option Nat) (s : String) :
    step fresh node
      { src := src, dest := dest,
        body := { id := mid, in_reply_to := irt, payload := Payload.Echo s } } =
      (⟨node.id + 1, node.value, node.known⟩, Except.ok (some
        { src := dest, dest := src,
          body := { id := some node.id, in_reply_to := mid,
                    payload := Payload.EchoOk s } })) := rfl

/-- C9: an inbound `init_ok` produces no reply, no error, and the counter
still increments by 1 (value and topology untouched). -/
theorem C9_init_ok_silent (fresh : String) (node : EchoNode)
    (src dest : String) (mid irt : Option Nat) :
    step fresh node
      { src := src, dest := dest,
        body := { id := mid, in_reply_to := irt, payload := Payload.InitOk } } =
      (⟨node.id + 1, node.value, node.known⟩, Except.ok none) := rfl

/-- C8: a `topology` message replaces the stored map wholesale (the reply
carries `topology_ok`), and after two successive `topology` messages only
the second map is retained, with no merging of entries from the first. -/
theorem C8_topology_last_write_wins (fresh fresh' : String) (node : EchoNode)
    (src dest : String) (mid irt : Option Nat)
    (t t2 : List (String × List Nat)) :
    step fresh node
      { src := src, dest := dest,
        body := { id := mid, in_reply_to := irt, payload := Payload.Topology t } } =
      (⟨node.id + 1, node.value, t⟩, Except.ok (some
        { src := dest, dest := src,
          body := { id := some node.id, in_reply_to := mid,
                    payload := Payload.TopologyOk } })) ∧
    ((step fresh'
        (step fresh node
          { src := src, dest := dest,
            body := { id := mid, in_reply_to := irt,
                      payload := Payload.Topology t } }).1
        { src := src, dest := dest,
          body := { id := mid, in_reply_to := irt,
                    payload := Payload.Topology t2 } }).1).known = t2 :=
  ⟨rfl, rfl⟩

/-- C4: every inbound reply-family payload other than `init_ok` makes
`step` fail with an error, emit no reply, and leave the node state
(counter, value, topology map) exactly as it was. -/
theorem C4_unexpected_reply_rejected (fresh : String) (node : EchoNode)
    (src dest : String) (mid irt : Option Nat) :
    (∀ s, step fresh node
        { src := src, dest := dest,
          body := { id := mid, in_reply_to := irt, payload := Payload.EchoOk s } } =
        (node, Except.error "recieved init_ok Message")) ∧
    (∀ i, step fresh node
        { src := src, dest := dest,
          body := { id := mid, in_reply_to := irt, payload := Payload.GenerateOk i } } =
        (node, Except.error "recieved generate_ok Message")) ∧
    (∀ v, step fresh node
        { src := src, dest := dest,
          body := { id := mid, in_reply_to := irt, payload := Payload.ReadOk v } } =
        (node, Except.error "recieved read_ok Message")) ∧
    step fresh node
      { src := src, dest := dest,
        body := { id := mid, in_reply_to := irt, payload := Payload.BroadcastOk } } =
      (node, Except.error "recieved BroadcastOk Message") ∧
    step fresh node
      { src := src, dest := dest,
        body := { id := mid, in_reply_to := irt, payload := Payload.TopologyOk } } =
      (node, Except.error "recieved TopologyOk Message") ∧
    step fresh node
      { src := src, dest := dest,
        body := { id := mid, in_reply_to := irt, payload := Payload.AddOk } } =
      (node, Except.error "recieved AddOk Message") :=
  ⟨fun _ => rfl, fun _ => rfl, fun _ => rfl, rfl, rfl, rfl⟩

/-- C10: across every branch of `step`, the accumulator `value` changes
only on `add` (where it gains `delta`) and the topology map `known`
changes only on `topology` (where it is replaced); every other branch,
the `broadcast` branch included, leaves both exactly as they were. -/
theorem C10_frame_effects (fresh : String) (node : EchoNode) (input : Message) :
    ((step fresh node input).1).value =
      (match input.body.payload with
       | Payload.Add delta => node.value + delta
       | _ => node.value) ∧
    ((step fresh node input).1).known =
      (match input.body.payload with
       | Payload.Topology t => t
       | _ => node.known) := by
  obtain ⟨src, dest, b⟩ := input
  obtain ⟨mid, irt, p⟩ := b
  cases p <;> exact ⟨rfl, rfl⟩

/-- C1: the counter starts at 0 (initial node of `main`); whenever `step`
succeeds (every payload variant, the no-reply `init_ok` branch included)
the counter is incremented by exactly 1, and whenever `step` fails (the
unexpected-reply `bail!` arms) the counter is left unchanged. -/
theorem C1_counter_increment (fresh : String) (node : EchoNode) (input : Message) :
    initialNode.id = 0 ∧
    (∀ out, (step fresh node input).2 = Except.ok out →
      ((step fresh node input).1).id = node.id + 1) ∧
    (∀ e, (step fresh node input).2 = Except.error e →
      ((step fresh node input).1).id = node.id) := by
  obtain ⟨src, dest, b⟩ := input
  obtain ⟨mid, irt, p⟩ := b
  refine ⟨rfl, ?_, ?_⟩ <;> cases p <;> intro x h <;> first | rfl | exact absurd h (by simp [step, dispatch])

/-- C1 witness: at a concrete `echo` the counter goes from 0 to 1, and at
a concrete inbound `echo_ok` (failed dispatch) it stays 0. -/
theorem C1_counter_increment_witness :
    ((step "u" initialNode sampleEcho).1).id = initialNode.id + 1 ∧
    ((step "u" initialNode sampleEchoOk).1).id = initialNode.id :=
  ⟨(C1_counter_increment "u" initialNode sampleEcho).2.1
      (some { src := "n1", dest := "c1",
              body := { id := some 0, in_reply_to := some 7,
                        payload := Payload.EchoOk "hi" } }) rfl,
   (C1_counter_increment "u" initialNode sampleEchoOk).2.2
      "recieved init_ok Message" rfl⟩

/-- C2: every reply produced by `step` has `src` equal to the inbound
`dest`, `dest` equal to the inbound `src`, `msg_id` equal to the counter
value current at dispatch time (before the post-dispatch increment), and
`in_reply_to` equal to the inbound body's `msg_id`. -/
theorem C2_reply_envelope (fresh : String) (node : EchoNode) (input reply : Message)
    (h : (step fresh node input).2 = Except.ok (some reply)) :
    reply.src = input.dest ∧ reply.dest = input.src ∧
    reply.body.id = some node.id ∧ reply.body.in_reply_to = input.body.id := by
  obtain ⟨src, dest, b⟩ := input
  obtain ⟨mid, irt, p⟩ := b
  cases p <;> simp [step, dispatch] at h <;> subst h <;> exact ⟨rfl, rfl, rfl, rfl⟩

/-- C2 witness: the concrete `echo` reply is addressed back with the
pre-increment counter as `msg_id` and the request's `msg_id` as
`in_reply_to`. -/
theorem C2_reply_envelope_witness :
    (Message.mk "n1" "c1"
      (Body.mk (some 0) (some 7) (Payload.EchoOk "hi"))).src = sampleEcho.dest ∧
    (Message.mk "n1" "c1"
      (Body.mk (some 0) (some 7) (Payload.EchoOk "hi"))).dest = sampleEcho.src ∧
    (Message.mk "n1" "c1"
      (Body.mk (some 0) (some 7) (Payload.EchoOk "hi"))).body.id = some initialNode.id ∧
    (Message.mk "n1" "c1"
      (Body.mk (some 0) (some 7) (Payload.EchoOk "hi"))).body.in_reply_to = sampleEcho.body.id :=
  C2_reply_envelope "u" initialNode sampleEcho _ rfl

/-- A concrete `add` request carrying delta `d` (fixed envelope fields;
the claims about sums do not depend on them). -/
def addMsg (d : Nat) : Message :=
  { src := "c1", dest := "n1",
    body := { id := some 1, in_reply_to := none, payload := Payload.Add d } }

/-- A concrete `read` request. -/
def readMsg : Message :=
  { src := "c1", dest := "n1",
    body := { id := some 3, in_reply_to := none, payload := Payload.Read } }

/-- When a step succeeds, the final node of the whole run is the final
node of the run on the remaining inputs. -/
theorem run_cons_ok_fst (gen : Nat → String) (k : Nat) (node : EchoNode)
    (input : Message) (rest : List Message) (n : EchoNode) (out : Option Message)
    (h : step (gen k) node input = (n, Except.ok out)) :
    (run gen k node (input :: rest)).1 = (run gen (k + 1) n rest).1 := by
  rcases hr : run gen (k + 1) n rest with ⟨n', r⟩
  cases r <;> simp [run, h, hr]

/-- Feeding any list of `add` requests to the main loop adds the sum of
their deltas to the accumulator. -/
theorem run_addMsg_value (gen : Nat → String) :
    ∀ (ds : List Nat) (k : Nat) (node : EchoNode),
      ((run gen k node (ds.map addMsg)).1).value = node.value + ds.sum
  | [], _, _ => by simp [run]
  | d :: ds, k, node => by
      have hstep : step (gen k) node (addMsg d) =
          (⟨node.id + 1, node.value + d, node.known⟩, Except.ok (some
            { src := "n1", dest := "c1",
              body := { id := some node.id, in_reply_to := some 1,
                        payload := Payload.AddOk } })) := rfl
      rw [List.map_cons,
        run_cons_ok_fst gen k node (addMsg d) (ds.map addMsg) _ _ hstep,
        run_addMsg_value gen ds (k + 1) ⟨node.id + 1, node.value + d, node.known⟩]
      simp [List.sum_cons]
      omega

/-- C7: each `add` request adds its delta to the accumulator and is
answered with a bare `add_ok`; `read` is answered with `read_ok` carrying
the current accumulator; over any run of `add` requests the accumulator
gains exactly the sum of the deltas; and concretely `add 3`, `add 4`,
`read` from the initial node yields `read_ok` with value 7. -/
theorem C7_counter_workload (fresh : String) (node : EchoNode)
    (src dest : String) (mid irt : Option Nat) (gen : Nat → String) :
    (∀ d, step fresh node
        { src := src, dest := dest,
          body := { id := mid, in_reply_to := irt, payload := Payload.Add d } } =
        (⟨node.id + 1, node.value + d, node.known⟩, Except.ok (some
          { src := dest, dest := src,
            body := { id := some node.id, in_reply_to := mid,
                      payload := Payload.AddOk } }))) ∧
    step fresh node
      { src := src, dest := dest,
        body := { id := mid, in_reply_to := irt, payload := Payload.Read } } =
      (⟨node.id + 1, node.value, node.known⟩, Except.ok (some
        { src := dest, dest := src,
          body := { id := some node.id, in_reply_to := mid,
                    payload := Payload.ReadOk node.value } })) ∧
    (∀ (ds : List Nat) (k : Nat),
      ((run gen k node (ds.map addMsg)).1).value = node.value + ds.sum) ∧
    run gen0 0 initialNode [addMsg 3, addMsg 4, readMsg] =
      (⟨3, 7, []⟩, Except.ok
        [{ src := "n1", dest := "c1",
           body := { id := some 0, in_reply_to := some 1, payload := Payload.AddOk } },
         { src := "n1", dest := "c1",
           body := { id := some 1, in_reply_to := some 1, payload := Payload.AddOk } },
         { src := "n1", dest := "c1",
           body := { id := some 2, in_reply_to := some 3, payload := Payload.ReadOk 7 } }]) :=
  ⟨fun _ => rfl, rfl, fun ds k => run_addMsg_value gen ds k node, rfl⟩

/-- JSON values, for modelling the serde_json encoding of `Message`. -/
inductive Json where
  | null
  | num (n : Nat)
  | str (s : String)
  | arr (xs : List Json)
  | obj (fields : List (String × Json))
  deriving Repr

/-- serde encoding of an `Option<usize>` field without
`skip_serializing_if`: `None` serializes as `null`. -/
def encodeOptNat : Option Nat → Json
  | none => Json.null
  | some n => Json.num n

/-- The internally tagged serde encoding of `Payload`
(`#[serde(tag = "type")]`, `rename_all = "snake_case"`): the `type` tag
followed by the variant's named fields. -/
def payloadFields : Payload → List (String × Json)
  | Payload.Add delta => [("type", Json.str "add"), ("delta", Json.num delta)]
  | Payload.AddOk => [("type", Json.str "add_ok")]
  | Payload.Echo e => [("type", Json.str "echo"), ("echo", Json.str e)]
  | Payload.EchoOk e => [("type", Json.str "echo_ok"), ("echo", Json.str e)]
  | Payload.Init nid nids =>
      [("type", Json.str "init"), ("node_id", Json.str nid),
       ("node_ids", Json.arr (nids.map Json.str))]
  | Payload.InitOk => [("type", Json.str "init_ok")]
  | Payload.Generate => [("type", Json.str "generate")]
  | Payload.GenerateOk i => [("type", Json.str "generate_ok"), ("id", Json.str i)]
  | Payload.Broadcast m => [("type", Json.str "broadcast"), ("message", Json.num m)]
  | Payload.BroadcastOk => [("type", Json.str "broadcast_ok")]
  | Payload.Read => [("type", Json.str "read")]
  | Payload.ReadOk v => [("type", Json.str "read_ok"), ("value", Json.num v)]
  | Payload.TopologyOk => [("type", Json.str "topology_ok")]
  | Payload.Topology t =>
      [("type", Json.str "topology"),
       ("topology", Json.obj (t.map (fun p => (p.1, Json.arr (p.2.map Json.num)))))]

/-- The serde encoding of `Body`: the `msg_id` and `in_reply_to` entries
(always emitted, `null` when `None`, since the struct carries no
`skip_serializing_if` attribute) followed by the flattened payload
fields. -/
def bodyFields (b : Body) : List (String × Json) :=
  ("msg_id", encodeOptNat b.id) ::
  ("in_reply_to", encodeOptNat b.in_reply_to) ::
  payloadFields b.payload

/-- The serde encoding of a full `Message` envelope. -/
def encodeMessage (m : Message) : Json :=
  Json.obj [("src", Json.str m.src), ("dest", Json.str m.dest),
            ("body", Json.obj (bodyFields m.body))]

/-- C5 counterexample: encoding a body whose optional `msg_id` and
`in_reply_to` are absent emits both keys with value `null` instead of
omitting them, refuting the claim that absent optional fields are omitted
from the JSON object. -/
theorem C5_null_emitted_counterexample :
    ("msg_id", Json.null) ∈
      bodyFields { id := none, in_reply_to := none, payload := Payload.Read } ∧
    ("in_reply_to", Json.null) ∈
      bodyFields { id := none, in_reply_to := none, payload := Payload.Read } ∧
    bodyFields { id := none, in_reply_to := none, payload := Payload.Read } =
      [("msg_id", Json.null), ("in_reply_to", Json.null), ("type", Json.str "read")] :=
  ⟨List.Mem.head _, List.Mem.tail _ (List.Mem.head _), rfl⟩

/-- C5 amended: when encoding a message every optional body field is
always emitted — as `null` when absent, never omitted — so `in_reply_to`
(and `msg_id`) is present in every encoded body, in particular in every
reply body built by the engine. -/
theorem C5_optional_fields_always_present (b : Body) (m : Message) :
    ("msg_id", encodeOptNat b.id) ∈ bodyFields b ∧
    ("in_reply_to", encodeOptNat b.in_reply_to) ∈ bodyFields b ∧
    encodeOptNat none = Json.null ∧
    encodeMessage m = Json.obj [("src", Json.str m.src), ("dest", Json.str m.dest),
      ("body", Json.obj (bodyFields m.body))] :=
  ⟨List.Mem.head _, List.Mem.tail _ (List.Mem.head _), rfl, rfl⟩

/-- Modelled from the spec: the payload union of the log-replication
workload variant, whose source file is missing from src (only the counter
variant is present there) — `broadcast` carries a value to append and
`read_ok` carries `messages`, the full log. -/
inductive LogPayload where
  | Echo (echo : String)
  | EchoOk (echo : String)
  | Init (node_id : String) (node_ids : List String)
  | InitOk
  | Generate
  | GenerateOk (id : String)
  | Broadcast (message : Nat)
  | BroadcastOk
  | Read
  | ReadOk (messages : List Nat)
  | TopologyOk
  | Topology (topology : List (String × List Nat))
  deriving Repr, DecidableEq

/-- Modelled from the spec: the body of a log-workload message. -/
structure LogBody where
  id : Option Nat
  in_reply_to : Option Nat
  payload : LogPayload
  deriving Repr, DecidableEq

/-- Modelled from the spec: the envelope of a log-workload message. -/
structure LogMessage where
  src : String
  dest : String
  body : LogBody
  deriving Repr, DecidableEq

/-- Modelled from the spec: the log-workload node state — message counter,
append-only log of broadcast values, topology map. -/
structure LogNode where
  id : Nat
  messages : List Nat
  known : List (String × List Nat)
  deriving Repr, DecidableEq

/-- Modelled from the spec: the dispatch table of the log-workload step
function — `broadcast` appends its value to the log (arrival order,
duplicates kept) and replies `broadcast_ok`; `read` replies `read_ok` with
the full log in append order; the remaining branches behave as in the
counter variant. -/
def logDispatch (fresh : String) (node : LogNode) (input : LogMessage) :
    LogNode × Except String (Option LogMessage) :=
  match input.body.payload with
  | LogPayload.Broadcast message =>
      ({ node with messages := node.messages ++ [message] }, Except.ok (some
        { src := input.dest, dest := input.src,
          body := { id := some node.id, in_reply_to := input.body.id,
                    payload := LogPayload.BroadcastOk } }))
  | LogPayload.Read =>
      (node, Except.ok (some
        { src := input.dest, dest := input.src,
          body := { id := some node.id, in_reply_to := input.body.id,
                    payload := LogPayload.ReadOk node.messages } }))
  | LogPayload.Topology topology =>
      ({ node with known := topology }, Except.ok (some
        { src := input.dest, dest := input.src,
          body := { id := some node.id, in_reply_to := input.body.id,
                    payload := LogPayload.TopologyOk } }))
  | LogPayload.Echo echo =>
      (node, Except.ok (some
        { src := input.dest, dest := input.src,
          body := { id := some node.id, in_reply_to := input.body.id,
                    payload := LogPayload.EchoOk echo } }))
  | LogPayload.Init _ _ =>
      (node, Except.ok (some
        { src := input.dest, dest := input.src,
          body := { id := some node.id, in_reply_to := input.body.id,
                    payload := LogPayload.InitOk } }))
  | LogPayload.Generate =>
      (node, Except.ok (some
        { src := input.dest, dest := input.src,
          body := { id := some node.id, in_reply_to := input.body.id,
                    payload := LogPayload.GenerateOk fresh } }))
  | LogPayload.InitOk => (node, Except.ok none)
  | LogPayload.EchoOk _ => (node, Except.error "unexpected reply")
  | LogPayload.GenerateOk _ => (node, Except.error "unexpected reply")
  | LogPayload.ReadOk _ => (node, Except.error "unexpected reply")
  | LogPayload.BroadcastOk => (node, Except.error "unexpected reply")
  | LogPayload.TopologyOk => (node, Except.error "unexpected reply")

/-- Modelled from the spec: the log-workload step function — dispatch,
then increment the message counter by 1 unless dispatch failed. -/
def logStep (fresh : String) (node : LogNode) (input : LogMessage) :
    LogNode × Except String (Option LogMessage) :=
  match logDispatch fresh node input with
  | (n, Except.ok out) => ({ n with id := n.id + 1 }, Except.ok out)
  | (n, Except.error e) => (n, Except.error e)

/-- Modelled from the spec: the initial log-workload node state. -/
def initialLogNode : LogNode := { id := 0, messages := [], known := [] }

/-- Modelled from the spec: the log-workload driving loop, feeding each
message to the step function in order and collecting replies. -/
def logRun (gen : Nat → String) :
    Nat → LogNode → List LogMessage → LogNode × Except String (List LogMessage)
  | _, node, [] => (node, Except.ok [])
  | k, node, input :: rest =>
      match logStep (gen k) node input with
      | (n, Except.ok out) =>
          match logRun gen (k + 1) n rest with
          | (n', Except.ok outs) => (n', Except.ok (out.toList ++ outs))
          | (n', Except.error e) => (n', Except.error e)
      | (n, Except.error e) => (n, Except.error e)

/-- A concrete log-workload `broadcast` request. -/
def broadcastMsg (m : Nat) (mid : Nat) : LogMessage :=
  { src := "c1", dest := "n1",
    body := { id := some mid, in_reply_to := none, payload := LogPayload.Broadcast m } }

/-- A concrete log-workload `read` request. -/
def logReadMsg : LogMessage :=
  { src := "c1", dest := "n1",
    body := { id := some 4, in_reply_to := none, payload := LogPayload.Read } }

/-- C3: in the log workload each `broadcast` appends its value to the log
(arrival order, duplicates kept) and `read` replies with the full log in
append order; concretely `broadcast 5`, `broadcast 5`, `broadcast 9`,
`read` from the initial node yields `read_ok` with messages `[5, 5, 9]`. -/
theorem C3_log_workload (fresh : String) (node : LogNode)
    (src dest : String) (mid irt : Option Nat) :
    (∀ m, logStep fresh node
        { src := src, dest := dest,
          body := { id := mid, in_reply_to := irt, payload := LogPayload.Broadcast m } } =
        (⟨node.id + 1, node.messages ++ [m], node.known⟩, Except.ok (some
          { src := dest, dest := src,
            body := { id := some node.id, in_reply_to := mid,
                      payload := LogPayload.BroadcastOk } }))) ∧
    logStep fresh node
      { src := src, dest := dest,
        body := { id := mid, in_reply_to := irt, payload := LogPayload.Read } } =
      (⟨node.id + 1, node.messages, node.known⟩, Except.ok (some
        { src := dest, dest := src,
          body := { id := some node.id, in_reply_to := mid,
                    payload := LogPayload.ReadOk node.messages } })) ∧
    logRun gen0 0 initialLogNode
      [broadcastMsg 5 1, broadcastMsg 5 2, broadcastMsg 9 3, logReadMsg] =
      (⟨4, [5, 5, 9], []⟩, Except.ok
        [{ src := "n1", dest := "c1",
           body := { id := some 0, in_reply_to := some 1, payload := LogPayload.BroadcastOk } },
         { src := "n1", dest := "c1",
           body := { id := some 1, in_reply_to := some 2, payload := LogPayload.BroadcastOk } },
         { src := "n1", dest := "c1",
           body := { id := some 2, in_reply_to := some 3, payload := LogPayload.BroadcastOk } },
         { src := "n1", dest := "c1",
           body := { id := some 3, in_reply_to := some 4,
                     payload := LogPayload.ReadOk [5, 5, 9] } }]) :=
  ⟨fun _ => rfl, rfl, rfl⟩

end Whirlpool
